import Mathlib

/-!
Verification of the PV sites dashboard (src/app.py) against its design
specification.  The app loads two tables from a remote store through a
TTL-cached read path, joins client names onto sites, filters the result by
client and power range, and offers two write forms (update and insert)
that invalidate the sites cache on success.

The embedding below models, from the source:
  - the data model (rows of the two tables, the assembled view);
  - the Gateway calls issued by the app (select with the ignore_site
    filter and name ordering, update, insert), with a `failing` flag
    standing for connectivity/store errors;
  - the two cached readers `charger_sites` (TTL 60 s) and
    `charger_clients` (TTL 300 s), as explicit state passing over a
    two-slot cache, counting Gateway calls;
  - the write helpers `sauvegarder_site` and `ajouter_site` and the cache
    invalidation `charger_sites.clear()` they perform on success;
  - the assembly and filter pipeline (pandas column operations become list
    operations);
  - the two forms: pre-fill, payload construction, validation and error
    handling, with Python truthiness (`x or d`) modelled explicitly.

Numeric power values are modelled as rationals: no claim below depends on
floating-point rounding.  pandas missing values (NaN) in the power column
are `Option.none`; in the two places where a NaN can flow into a Python
truth test — the default max bound, and the power cell of an edit record
drawn from a float64 column — the embedding keeps the distinction
(`Option` for the former, `PyNum` for the record cell) so that the NaN
outcome stays observable.
-/

namespace PVDashboard

/-- One row of the `sites_mapping` table, with the columns selected by
`charger_sites` (src/app.py lines 40-42).  Nullable columns are `Option`. -/
structure SiteRecord where
  id : Int
  name : Option String
  code : Option String
  nominal_power : Option ℚ
  address : Option String
  commission_date : Option String
  client_map_id : Option Int
  ignore_site : Bool
deriving Repr, DecidableEq

/-- The client dictionary built by `charger_clients`
(`{c["id"]: c["name"] for c in response.data}`, line 49), as an
association list keyed by the primary key `id`. -/
abbrev ClientMap := List (Int × String)

/-- Dictionary lookup `clients[i]`, absent keys giving `none`. -/
def lookupClient (clients : ClientMap) (i : Int) : Option String :=
  (clients.find? (fun p => p.1 == i)).map Prod.snd

/-- pandas `.fillna(0)` on the nominal power column (lines 111-112). -/
def fillna0 (p : Option ℚ) : ℚ := p.getD 0

/-- The remote store as seen through the Gateway: the two tables plus a
flag modelling connectivity/store failure of the next call. -/
structure Gateway where
  sitesTable : List SiteRecord
  clientsTable : List (Int × String)
  failing : Bool
deriving Repr, DecidableEq

/-- Comparison used by `.order("name")` on the sites select. -/
def siteNameLe (a b : SiteRecord) : Prop := a.name.getD "" ≤ b.name.getD ""

instance : DecidableRel siteNameLe := fun a b => by
  unfold siteNameLe; infer_instance

/-- Comparison used by `.order("name")` on the clients select. -/
def clientNameLe (a b : Int × String) : Prop := a.2 ≤ b.2

instance : DecidableRel clientNameLe := fun a b => by
  unfold clientNameLe; infer_instance

/-- The sites select issued by `charger_sites` (lines 40-42):
`select(...).eq("ignore_site", False).order("name")`. -/
def gatewaySelectSites (table : List SiteRecord) : List SiteRecord :=
  (table.filter (fun r => r.ignore_site == false)).insertionSort siteNameLe

/-- The clients select issued by `charger_clients` (line 48):
`select("id, name").order("name")`. -/
def gatewaySelectClients (table : List (Int × String)) : ClientMap :=
  table.insertionSort clientNameLe

/-- The update payload built by the edit form (lines 204-210).  Note that
`name`, `code`, `nominal_power` and `address` are always present and
non-null in this payload; only `commission_date` can be null. -/
structure UpdateRecord where
  name : String
  code : String
  nominal_power : ℚ
  address : String
  commission_date : Option String
deriving Repr, DecidableEq

/-- The insert payload built by the add form (lines 256-263). -/
structure InsertRecord where
  name : String
  code : Option String
  nominal_power : Option ℚ
  address : Option String
  commission_date : Option String
  client_map_id : Option Int
deriving Repr, DecidableEq

/-- Effect of `update(data).eq("id", site_id)` on one stored row. -/
def applyUpdate (r : SiteRecord) (d : UpdateRecord) : SiteRecord :=
  { r with
    name := some d.name
    code := some d.code
    nominal_power := some d.nominal_power
    address := some d.address
    commission_date := d.commission_date }

/-- Primary key assigned by the store to an inserted row, modelled as one
more than the largest id in the table. -/
def freshId (table : List SiteRecord) : Int :=
  (table.map (fun r => r.id)).foldl max 0 + 1

/-- The stored row created from an insert payload.  `ignore_site` takes
the column default `false` since the payload never sets it. -/
def insertedRow (newId : Int) (rec : InsertRecord) : SiteRecord :=
  { id := newId
    name := some rec.name
    code := rec.code
    nominal_power := rec.nominal_power
    address := rec.address
    commission_date := rec.commission_date
    client_map_id := rec.client_map_id
    ignore_site := false }

/-- `supabase.table("sites_mapping").update(data).eq("id", site_id).execute()`
(line 53): fails with a store error, or updates the matching rows. -/
def gatewayUpdate (gw : Gateway) (site_id : Int) (data : UpdateRecord) :
    Except String Gateway :=
  if gw.failing then .error "store error"
  else .ok { gw with
    sitesTable := gw.sitesTable.map
      (fun r => if r.id == site_id then applyUpdate r data else r) }

/-- `supabase.table("sites_mapping").insert(data).execute()` (line 60). -/
def gatewayInsert (gw : Gateway) (rec : InsertRecord) : Except String Gateway :=
  if gw.failing then .error "store error"
  else .ok { gw with
    sitesTable := gw.sitesTable ++ [insertedRow (freshId gw.sitesTable) rec] }

/-- The two memoization slots of `st.cache_data`: one per cached reader,
each holding a value and the time it was stored. -/
structure AppCache where
  sites : Option (List SiteRecord × Nat)
  clients : Option (ClientMap × Nat)
deriving Repr, DecidableEq

/-- The cache at session start: both slots empty. -/
def emptyCache : AppCache := { sites := none, clients := none }

/-- `charger_sites` (lines 37-43) under `@st.cache_data(ttl=60)`: return
the cached collection while its age is below 60 seconds, otherwise fetch
through the Gateway and store the result with a fresh timestamp.  Returns
the value, the cache afterwards, and the number of Gateway calls made;
a Gateway failure propagates as the error. -/
def charger_sites (gw : Gateway) (cache : AppCache) (now : Nat) :
    Except String (List SiteRecord × AppCache × Nat) :=
  match cache.sites with
  | some (v, t) =>
      if now - t < 60 then .ok (v, cache, 0)
      else if gw.failing then .error "store error"
      else
        .ok (gatewaySelectSites gw.sitesTable,
             { cache with sites := some (gatewaySelectSites gw.sitesTable, now) }, 1)
  | none =>
      if gw.failing then .error "store error"
      else
        .ok (gatewaySelectSites gw.sitesTable,
             { cache with sites := some (gatewaySelectSites gw.sitesTable, now) }, 1)

/-- `charger_clients` (lines 45-49) under `@st.cache_data(ttl=300)`:
identical shape with a 300 second TTL and the clients dictionary. -/
def charger_clients (gw : Gateway) (cache : AppCache) (now : Nat) :
    Except String (ClientMap × AppCache × Nat) :=
  match cache.clients with
  | some (v, t) =>
      if now - t < 300 then .ok (v, cache, 0)
      else if gw.failing then .error "store error"
      else
        .ok (gatewaySelectClients gw.clientsTable,
             { cache with clients := some (gatewaySelectClients gw.clientsTable, now) }, 1)
  | none =>
      if gw.failing then .error "store error"
      else
        .ok (gatewaySelectClients gw.clientsTable,
             { cache with clients := some (gatewaySelectClients gw.clientsTable, now) }, 1)

/-- `sauvegarder_site` (lines 51-56): issue the update, then — only after
a successful `execute()` — clear the sites cache slot
(`charger_sites.clear()`).  A Gateway error propagates before the clear,
leaving the cache untouched. -/
def sauvegarder_site (gw : Gateway) (cache : AppCache) (site_id : Int)
    (data : UpdateRecord) : Except String (Gateway × AppCache) :=
  match gatewayUpdate gw site_id data with
  | .error e => .error e
  | .ok gw2 => .ok (gw2, { cache with sites := none })

/-- `ajouter_site` (lines 58-62): insert then clear the sites cache slot,
with the same error behaviour as `sauvegarder_site`. -/
def ajouter_site (gw : Gateway) (cache : AppCache) (rec : InsertRecord) :
    Except String (Gateway × AppCache) :=
  match gatewayInsert gw rec with
  | .error e => .error e
  | .ok gw2 => .ok (gw2, { cache with sites := none })

/-- One row of the assembled dataframe `df`: the site columns plus the
resolved `client_name` column (line 80). -/
structure SiteView extends SiteRecord where
  client_name : String
deriving Repr, DecidableEq

/-- The pandas column `df["client_map_id"].map(clients)` (line 80): per
row, `none` (NaN) when `client_map_id` is null or not a key of the
dictionary. -/
def clientColumn (sites : List SiteRecord) (clients : ClientMap) :
    List (Option String) :=
  sites.map (fun s => s.client_map_id.bind (lookupClient clients))

/-- Data assembly (lines 79-80): `df = pd.DataFrame(sites)` followed by
`df["client_name"] = df["client_map_id"].map(clients).fillna("Non assigné")`.
The sentinel the spec calls "Unassigned" is the source's "Non assigné". -/
def assemble (sites : List SiteRecord) (clients : ClientMap) : List SiteView :=
  List.zipWith (fun s c => { toSiteRecord := s, client_name := c })
    sites ((clientColumn sites clients).map (fun o => o.getD "Non assigné"))

/-- Effective power of a view row: `df_filtre["nominal_power"].fillna(0)`. -/
def effective_power (v : SiteView) : ℚ := fillna0 v.nominal_power

/-- The filter engine `df_filtre` (lines 107-113): keep rows matching the
client selector (the sentinel the spec calls "All" is the source's
"Tous"), then keep rows whose effective power lies in [pmin, pmax]. -/
def df_filtre (df : List SiteView) (filtre_client : String) (pmin pmax : ℚ) :
    List SiteView :=
  let d1 := if filtre_client != "Tous"
            then df.filter (fun v => v.client_name == filtre_client)
            else df
  d1.filter (fun v =>
    decide (pmin ≤ effective_power v) && decide (effective_power v ≤ pmax))

/-- pandas `df["nominal_power"].max()` (line 102), which skips missing
values and is NaN — modelled as `none` — when every value is missing. -/
def seriesMaxPower (df : List SiteView) : Option ℚ :=
  (df.filterMap (fun v => v.nominal_power)).max?

/-- Python `m or 10000` applied to the series max (line 102), `none`
modelling NaN: NaN is truthy in Python, so it passes through unchanged;
a number is falsy exactly when it is 0, in which case 10000 replaces it. -/
def pyOrTenThousand : Option ℚ → Option ℚ
  | none => none
  | some x => if x = 0 then some 10000 else some x

/-- The default value of the max power input
(`float(df["nominal_power"].max() or 10000)`, line 102); `none` means the
widget default is NaN. -/
def puissance_max_default (df : List SiteView) : Option ℚ :=
  pyOrTenThousand (seriesMaxPower df)

/-- Python `x or d` for a nullable string: `None` and the empty string
are falsy. -/
def pyOrStr (x : Option String) (d : String) : String :=
  match x with
  | none => d
  | some s => if s = "" then d else s

/-- Python `x or d` for a nullable number: `None` and 0 are falsy. -/
def pyOrRat (x : Option ℚ) (d : ℚ) : ℚ :=
  match x with
  | none => d
  | some q => if q = 0 then d else q

/-- Python `s or None` for a string: the empty string becomes null. -/
def strOrNone (s : String) : Option String :=
  if s = "" then none else some s

/-- Python `q or None` for a number: 0 becomes null. -/
def ratOrNone (q : ℚ) : Option ℚ :=
  if q = 0 then none else some q

/-- The state of the edit form widgets (lines 184-199). -/
structure EditForm where
  new_name : String
  new_code : String
  new_power : ℚ
  new_address : String
  new_date : Option String
deriving Repr, DecidableEq

/-- A numeric cell of a record produced by pandas in the records
orientation: Python None (the null of an object column), float NaN (the
null of a float64 column), or a finite number. -/
inductive PyNum where
  | none
  | nan
  | num (q : ℚ)
deriving Repr, DecidableEq

/-- The `nominal_power` cell of the edit record drawn from
`df_filtre.to_dict` with the records orientation (line 165).  The column
dtype is fixed when `pd.DataFrame(sites)` is built from the whole
collection (line 79) and survives filtering: when every power in the
collection is absent the column is object and a null survives as Python
None; as soon as any site has a numeric power the column is float64 and
a null becomes NaN. -/
def recordPower (sites : List SiteRecord) (s : SiteRecord) : PyNum :=
  match s.nominal_power with
  | some q => .num q
  | none =>
      if sites.all (fun r => r.nominal_power.isNone) then .none else .nan

/-- Python `x or 0` on such a cell (line 189): None and 0.0 are falsy
and become 0, NaN is truthy and passes through. -/
def pyNumOrZero : PyNum → PyNum
  | .none => .num 0
  | .nan => .nan
  | .num q => if q = 0 then .num 0 else .num q

/-- The value the power widget is pre-filled with
(`value=float(site["nominal_power"] or 0)`, line 189), as a function of
the whole collection the record was drawn from. -/
def prefillPower (sites : List SiteRecord) (s : SiteRecord) : PyNum :=
  pyNumOrZero (recordPower sites s)

/-- Pre-fill of the edit form widgets from the selected record
(lines 185-198).  The record reaches the form through pandas in the
records orientation: its string cells come from object columns, so a
stored null arrives as Python None and `site[f] or ""` gives the empty
string; the date is kept when present and left empty otherwise.  The
`new_power` field carries `float(site["nominal_power"] or 0)` read off
the stored value; that agrees with the true widget value `prefillPower`
whenever the power is present or every power in the collection is
absent, while in a mixed collection a null power actually reaches the
widget as NaN, which `prefillPower` captures and this rational-valued
field cannot. -/
def form_edit_prefill (site : SiteRecord) : EditForm :=
  { new_name := pyOrStr site.name ""
    new_code := pyOrStr site.code ""
    new_power := pyOrRat site.nominal_power 0
    new_address := pyOrStr site.address ""
    new_date := site.commission_date }

/-- The `update_data` payload built on submit of the edit form
(lines 204-210): every widget value is written as-is. -/
def update_data (f : EditForm) : UpdateRecord :=
  { name := f.new_name
    code := f.new_code
    nominal_power := f.new_power
    address := f.new_address
    commission_date := f.new_date }

/-- The `insert_data` payload built on submit of the add form
(lines 256-263): empty strings and a 0 power become null through
`or None`; the client selector yields `none` for the "-- Aucun --"
option and the chosen id otherwise. -/
def insert_data (add_name : String) (add_code : String) (add_power : ℚ)
    (add_address : String) (add_date : Option String)
    (add_client : Option Int) : InsertRecord :=
  { name := add_name
    code := strOrNone add_code
    nominal_power := ratOrNone add_power
    address := strOrNone add_address
    commission_date := add_date
    client_map_id := add_client }

/-- What one interaction shows the user. -/
inductive UiOutcome where
  | success (msg : String)
  | userMessage (msg : String)
  | validationError (msg : String)
deriving Repr, DecidableEq

/-- Submit handler of the edit form (lines 203-216): build the payload,
call `sauvegarder_site` inside try/except, and convert a failure into
`st.error(...)` with the Gateway and Streamlit cache left as they were.
Returns the outcome, the store, the cache, and the number of Gateway
write calls issued. -/
def form_edit_submit (gw : Gateway) (cache : AppCache) (site_id : Int)
    (f : EditForm) : UiOutcome × Gateway × AppCache × Nat :=
  match sauvegarder_site gw cache site_id (update_data f) with
  | .ok (gw2, c2) =>
      (.success ("Site \x27" ++ f.new_name ++ "\x27 mis à jour !"), gw2, c2, 1)
  | .error e =>
      (.userMessage ("Erreur lors de la sauvegarde : " ++ e), gw, cache, 1)

/-- Submit handler of the add form (lines 252-269): an empty name is
rejected with `st.error("Le nom est obligatoire.")` before anything else;
otherwise the payload is built and `ajouter_site` is called inside
try/except, a failure again becoming `st.error(...)` with state kept. -/
def form_ajout_submit (gw : Gateway) (cache : AppCache) (add_name : String)
    (add_code : String) (add_power : ℚ) (add_address : String)
    (add_date : Option String) (add_client : Option Int) :
    UiOutcome × Gateway × AppCache × Nat :=
  if add_name = "" then (.validationError "Le nom est obligatoire.", gw, cache, 0)
  else
    match ajouter_site gw cache
        (insert_data add_name add_code add_power add_address add_date add_client) with
    | .ok (gw2, c2) =>
        (.success ("Site \x27" ++ add_name ++ "\x27 ajouté !"), gw2, c2, 1)
    | .error e =>
        (.userMessage ("Erreur lors de l\x27ajout : " ++ e), gw, cache, 1)

/-- How the top-level read phase of a script run ends. -/
inductive LoadResult where
  | halted (warning : String)
  | loaded (df : List SiteView)
  | uncaught (e : String)
deriving Repr, DecidableEq

/-- The top-level read phase (lines 71-80): `sites = charger_sites()` and
`clients = charger_clients()` are called with no surrounding try/except,
so a Gateway error there escapes the script run (`uncaught`); an empty
site list warns and halts (`st.stop()`, lines 74-76); otherwise the
assembled dataframe is produced.  Returns the result, the cache
afterwards, and the number of Gateway calls made. -/
def load_data (gw : Gateway) (cache : AppCache) (now : Nat) :
    LoadResult × AppCache × Nat :=
  match charger_sites gw cache now with
  | .error e => (.uncaught e, cache, 0)
  | .ok (sites, c1, n1) =>
      match charger_clients gw c1 now with
      | .error e => (.uncaught e, c1, n1)
      | .ok (clients, c2, n2) =>
          if sites = [] then (.halted "Aucun site trouvé dans la base.", c2, n1 + n2)
          else (.loaded (assemble sites clients), c2, n1 + n2)

/-- True when a failed interaction ended as a caught, user-visible error
message rather than an exception escaping the run. -/
def loadFailureCaught : LoadResult → Bool
  | .uncaught _ => false
  | _ => true

/-! ## Sample data for concrete evaluations (shapes of the spec's
Scenario A: Alpha with power 50 assigned to client 1, Beta with power 200
and no client, the client table mapping 1 to "Acme"). -/

/-- Sample stored row "Alpha". -/
def siteAlpha : SiteRecord :=
  { id := 1, name := some "Alpha", code := some "A1", nominal_power := some 50,
    address := none, commission_date := none, client_map_id := some 1,
    ignore_site := false }

/-- Sample stored row "Beta", unassigned. -/
def siteBeta : SiteRecord :=
  { id := 2, name := some "Beta", code := none, nominal_power := some 200,
    address := none, commission_date := none, client_map_id := none,
    ignore_site := false }

/-- Sample stored row flagged `ignore_site`. -/
def siteIgnored : SiteRecord :=
  { id := 3, name := some "Zeta", code := none, nominal_power := some 10,
    address := none, commission_date := none, client_map_id := none,
    ignore_site := true }

/-- Sample stored row with every nullable field null. -/
def siteBare : SiteRecord :=
  { id := 4, name := none, code := none, nominal_power := none,
    address := none, commission_date := none, client_map_id := none,
    ignore_site := false }

/-- Sample client table. -/
def clientsAcme : ClientMap := [(1, "Acme")]

/-- Assembled view of `siteAlpha`. -/
def viewAlpha : SiteView := { toSiteRecord := siteAlpha, client_name := "Acme" }

/-- Assembled view of `siteBeta`. -/
def viewBeta : SiteView :=
  { toSiteRecord := siteBeta, client_name := "Non assigné" }

/-- A view whose nominal power is exactly 0. -/
def viewZeroPower : SiteView :=
  { id := 5, name := some "Zero", code := none, nominal_power := some 0,
    address := none, commission_date := none, client_map_id := none,
    ignore_site := false, client_name := "Non assigné" }

/-- A view whose nominal power is absent. -/
def viewNullPower : SiteView :=
  { toSiteRecord := siteBare, client_name := "Non assigné" }

/-- A healthy store holding the sample tables. -/
def gwOk : Gateway :=
  { sitesTable := [siteAlpha, siteBeta], clientsTable := [(1, "Acme")],
    failing := false }

/-- A store whose next call fails. -/
def gwFail : Gateway :=
  { sitesTable := [siteAlpha, siteBeta], clientsTable := [(1, "Acme")],
    failing := true }

/-- A sample update payload (the spec's Scenario C sets power to 75). -/
def updSample : UpdateRecord :=
  { name := "Alpha", code := "A1", nominal_power := 75, address := "",
    commission_date := none }

/-- The insert payload of the spec's Scenario D: only a name. -/
def insGamma : InsertRecord := insert_data "Gamma" "" 0 "" none none

/-- A cache holding unexpired entries in both slots, stored at time 0. -/
def cacheWarm : AppCache :=
  { sites := some ([siteAlpha], 0), clients := some (clientsAcme, 0) }

/-- The store after `updSample` has been applied to site 1 of `gwOk`. -/
def gwAfterUpdate : Gateway :=
  { sitesTable := [applyUpdate siteAlpha updSample, siteBeta],
    clientsTable := [(1, "Acme")], failing := false }

/-- `cacheWarm` after the sites slot has been invalidated. -/
def cacheCleared : AppCache :=
  { sites := none, clients := some (clientsAcme, 0) }

/-- The cache after a cold sites read from `gwOk` at time 0. -/
def cacheSites0 : AppCache :=
  { sites := some (gatewaySelectSites gwOk.sitesTable, 0), clients := none }

/-- The cache after a cold clients read from `gwOk` at time 0. -/
def cacheClients0 : AppCache :=
  { sites := none, clients := some (gatewaySelectClients gwOk.clientsTable, 0) }

/-- The store after `insGamma` has been inserted into `gwOk`. -/
def gwAfterInsert : Gateway :=
  { sitesTable := gwOk.sitesTable ++ [insertedRow (freshId gwOk.sitesTable) insGamma],
    clientsTable := gwOk.clientsTable, failing := false }

/-! ## Helper lemmas -/

theorem mem_gatewaySelectSites {r : SiteRecord} {table : List SiteRecord} :
    r ∈ gatewaySelectSites table ↔ r ∈ table ∧ r.ignore_site = false := by
  unfold gatewaySelectSites
  rw [List.mem_insertionSort, List.mem_filter]
  simp

theorem df_filtre_sublist (df : List SiteView) (c : String) (pmin pmax : ℚ) :
    (df_filtre df c pmin pmax).Sublist df := by
  unfold df_filtre
  dsimp only
  split
  · exact (List.filter_sublist _).trans (List.filter_sublist _)
  · exact List.filter_sublist _

theorem mem_df_filtre {v : SiteView} {df : List SiteView} {c : String}
    {pmin pmax : ℚ} :
    v ∈ df_filtre df c pmin pmax ↔
      v ∈ df ∧ (c = "Tous" ∨ v.client_name = c) ∧
        pmin ≤ effective_power v ∧ effective_power v ≤ pmax := by
  unfold df_filtre
  dsimp only
  by_cases hc : c = "Tous"
  · subst hc
    simp [List.mem_filter, and_assoc]
  · rw [if_pos (by simpa [bne_iff_ne] using hc)]
    simp only [List.mem_filter, beq_iff_eq, Bool.and_eq_true, decide_eq_true_eq]
    constructor
    · rintro ⟨⟨hmem, hname⟩, h1, h2⟩
      exact ⟨hmem, Or.inr hname, h1, h2⟩
    · rintro ⟨hmem, hname, h1, h2⟩
      rcases hname with h | h
      · exact absurd h hc
      · exact ⟨⟨hmem, h⟩, h1, h2⟩

theorem zipWith_self_map_getElem? {α β γ : Type} (f : α → β → γ) (g : α → β)
    (l : List α) (i : Nat) :
    (List.zipWith f l (l.map g))[i]? = (l[i]?).map (fun a => f a (g a)) := by
  induction l generalizing i with
  | nil => simp
  | cons a l ih =>
      cases i with
      | zero => simp
      | succ n => simpa using ih n

theorem assemble_eq_zipWith (sites : List SiteRecord) (clients : ClientMap) :
    assemble sites clients =
      List.zipWith (fun s c => { toSiteRecord := s, client_name := c }) sites
        (sites.map (fun s =>
          (s.client_map_id.bind (lookupClient clients)).getD "Non assigné")) := by
  unfold assemble clientColumn
  rw [List.map_map]
  rfl

theorem assemble_getElem? (sites : List SiteRecord) (clients : ClientMap)
    (i : Nat) :
    (assemble sites clients)[i]? = (sites[i]?).map (fun s =>
      { toSiteRecord := s,
        client_name :=
          (s.client_map_id.bind (lookupClient clients)).getD "Non assigné" }) := by
  rw [assemble_eq_zipWith, zipWith_self_map_getElem?]

theorem assemble_length (sites : List SiteRecord) (clients : ClientMap) :
    (assemble sites clients).length = sites.length := by
  rw [assemble_eq_zipWith, List.length_zipWith, List.length_map, Nat.min_self]

theorem mem_assemble_site {v : SiteView} {sites : List SiteRecord}
    {clients : ClientMap} (h : v ∈ assemble sites clients) :
    v.toSiteRecord ∈ sites := by
  rw [List.mem_iff_getElem?] at h
  obtain ⟨i, hi⟩ := h
  rw [assemble_getElem?] at hi
  cases hs : sites[i]? with
  | none => rw [hs] at hi; simp at hi
  | some s =>
      rw [hs] at hi
      rw [Option.map_some'] at hi
      injection hi with h2
      have hsv : v.toSiteRecord = s := by rw [← h2]
      rw [hsv]
      exact List.getElem?_mem hs

/-! ## Claim theorems -/

/-- C1.  The filter engine is a pure subsequence selection: its output is
an order-preserving subsequence of the input, a view belongs to it
exactly when the client selector is the sentinel (source "Tous", spec
"All") or matches its client name and its effective power (nominal power,
0 when absent) lies within [pmin, pmax] inclusively, and an inverted
range (min above max) yields the empty result. -/
theorem filter_engine_correct (df : List SiteView) (c : String)
    (pmin pmax : ℚ) :
    (df_filtre df c pmin pmax).Sublist df ∧
    (∀ v : SiteView, v ∈ df_filtre df c pmin pmax ↔
      v ∈ df ∧ (c = "Tous" ∨ v.client_name = c) ∧
        pmin ≤ effective_power v ∧ effective_power v ≤ pmax) ∧
    (pmax < pmin → df_filtre df c pmin pmax = []) := by
  refine ⟨df_filtre_sublist df c pmin pmax, fun v => mem_df_filtre, ?_⟩
  intro hlt
  rw [List.eq_nil_iff_forall_not_mem]
  intro v hv
  rcases mem_df_filtre.mp hv with ⟨-, -, h1, h2⟩
  exact absurd (le_trans h1 h2) (not_le.mpr hlt)

/-- C1 witness: the spec's Scenario A, evaluated through the theorem —
with the selector "Tous" and range [0, 100], Alpha (power 50) is kept and
Beta (power 200) is dropped, and an inverted range empties the result. -/
theorem filter_engine_correct_witness :
    viewAlpha ∈ df_filtre [viewAlpha, viewBeta] "Tous" 0 100 ∧
    viewBeta ∉ df_filtre [viewAlpha, viewBeta] "Tous" 0 100 ∧
    df_filtre [viewAlpha, viewBeta] "Tous" 100 0 = [] := by
  have h := filter_engine_correct [viewAlpha, viewBeta] "Tous" 0 100
  refine ⟨?_, ?_, ?_⟩
  · exact (h.2.1 viewAlpha).mpr ⟨by decide, Or.inl rfl, by decide, by decide⟩
  · intro hmem
    rcases (h.2.1 viewBeta).mp hmem with ⟨-, -, -, hle⟩
    exact absurd hle (by decide)
  · exact (filter_engine_correct [viewAlpha, viewBeta] "Tous" 100 0).2.2 (by decide)

/-- C4.  Data assembly is total and order/cardinality preserving: the
output has the same length as the input site list, its i-th row extends
the i-th input site, and its `client_name`, a total string field, is the
mapped client name when `client_map_id` resolves in the client dictionary
and the sentinel "Non assigné" (the spec's "Unassigned") when the id is
null or has no entry — lookup failure is never an error. -/
theorem data_assembly_total_ordered (sites : List SiteRecord)
    (clients : ClientMap) :
    (assemble sites clients).length = sites.length ∧
    (∀ i : Nat, (assemble sites clients)[i]? = (sites[i]?).map (fun s =>
      { toSiteRecord := s,
        client_name :=
          match s.client_map_id with
          | none => "Non assigné"
          | some cid => (lookupClient clients cid).getD "Non assigné" })) := by
  refine ⟨assemble_length sites clients, fun i => ?_⟩
  rw [assemble_getElem?]
  have hf : (fun s : SiteRecord =>
      ({ toSiteRecord := s,
         client_name :=
           (s.client_map_id.bind (lookupClient clients)).getD "Non assigné" } :
        SiteView)) = (fun s : SiteRecord =>
      ({ toSiteRecord := s,
         client_name :=
           match s.client_map_id with
           | none => "Non assigné"
           | some cid => (lookupClient clients cid).getD "Non assigné" } :
        SiteView)) := by
    funext s
    cases h : s.client_map_id <;> simp [h]
  rw [hf]

/-- C4 witness: Scenario A assembled through the theorem — two rows in,
two rows out, Alpha resolves to "Acme" and Beta to "Non assigné". -/
theorem data_assembly_total_ordered_witness :
    (assemble [siteAlpha, siteBeta] clientsAcme).length =
      [siteAlpha, siteBeta].length ∧
    (assemble [siteAlpha, siteBeta] clientsAcme)[0]? = some viewAlpha ∧
    (assemble [siteAlpha, siteBeta] clientsAcme)[1]? = some viewBeta := by
  have h := data_assembly_total_ordered [siteAlpha, siteBeta] clientsAcme
  refine ⟨h.1, ?_, ?_⟩
  · rw [h.2 0]; decide
  · rw [h.2 1]; decide

/-- C9.  Rows flagged `ignore_site` are excluded by the Gateway select
itself, so neither the fetched working set nor the assembled view nor any
filtered view ever contains one. -/
theorem ignore_site_excluded (table : List SiteRecord) (clients : ClientMap)
    (c : String) (pmin pmax : ℚ) :
    (∀ r ∈ gatewaySelectSites table, r.ignore_site = false) ∧
    (∀ v ∈ assemble (gatewaySelectSites table) clients,
        v.ignore_site = false) ∧
    (∀ v ∈ df_filtre (assemble (gatewaySelectSites table) clients) c pmin pmax,
        v.ignore_site = false) := by
  have h1 : ∀ r ∈ gatewaySelectSites table, r.ignore_site = false :=
    fun r hr => (mem_gatewaySelectSites.mp hr).2
  have h2 : ∀ v ∈ assemble (gatewaySelectSites table) clients,
      v.ignore_site = false :=
    fun v hv => h1 _ (mem_assemble_site hv)
  exact ⟨h1, h2, fun v hv => h2 v (mem_df_filtre.mp hv).1⟩

/-- C9 witness: a table holding an ignored row, read through the select
— the ignored row is gone and the surviving row has the flag unset,
via the theorem. -/
theorem ignore_site_excluded_witness :
    gatewaySelectSites [siteAlpha, siteIgnored] = [siteAlpha] ∧
    siteAlpha.ignore_site = false := by
  refine ⟨by decide, ?_⟩
  exact (ignore_site_excluded [siteAlpha, siteIgnored] clientsAcme "Tous" 0 100).1
    siteAlpha (by decide)

/-- C2.  Both write helpers clear the sites cache slot — exactly once, on
success, before returning to the caller — leaving the clients slot
untouched; the next `charger_sites` read therefore goes through the
Gateway and returns the post-write collection regardless of the previous
entry's remaining TTL. -/
theorem write_invalidates_sites_cache (gw : Gateway) (cache : AppCache)
    (site_id : Int) (d : UpdateRecord) (rec : InsertRecord) (now : Nat) :
    (∀ gw2 cache2, sauvegarder_site gw cache site_id d = .ok (gw2, cache2) →
      cache2.sites = none ∧ cache2.clients = cache.clients ∧
      charger_sites gw2 cache2 now =
        .ok (gatewaySelectSites gw2.sitesTable,
             { cache2 with sites := some (gatewaySelectSites gw2.sitesTable, now) },
             1)) ∧
    (∀ gw2 cache2, ajouter_site gw cache rec = .ok (gw2, cache2) →
      cache2.sites = none ∧ cache2.clients = cache.clients ∧
      charger_sites gw2 cache2 now =
        .ok (gatewaySelectSites gw2.sitesTable,
             { cache2 with sites := some (gatewaySelectSites gw2.sitesTable, now) },
             1)) := by
  constructor
  · intro gw2 cache2 h
    unfold sauvegarder_site gatewayUpdate at h
    cases hgw : gw.failing with
    | true => rw [hgw] at h; simp at h
    | false =>
        rw [hgw] at h
        simp only [Bool.false_eq_true, if_false, Except.ok.injEq,
          Prod.mk.injEq] at h
        obtain ⟨h1, h2⟩ := h
        subst h1
        subst h2
        exact ⟨rfl, rfl, by simp [charger_sites, hgw]⟩
  · intro gw2 cache2 h
    unfold ajouter_site gatewayInsert at h
    cases hgw : gw.failing with
    | true => rw [hgw] at h; simp at h
    | false =>
        rw [hgw] at h
        simp only [Bool.false_eq_true, if_false, Except.ok.injEq,
          Prod.mk.injEq] at h
        obtain ⟨h1, h2⟩ := h
        subst h1
        subst h2
        exact ⟨rfl, rfl, by simp [charger_sites, hgw]⟩

/-- C2 witness: the update of the spec's Scenario C run on the sample
store with both cache slots warm — the theorem yields the cleared sites
slot, the untouched clients slot, and the fresh read of the updated
table. -/
theorem write_invalidates_sites_cache_witness :
    cacheCleared.sites = none ∧
    cacheCleared.clients = cacheWarm.clients ∧
    charger_sites gwAfterUpdate cacheCleared 10 =
      .ok (gatewaySelectSites gwAfterUpdate.sitesTable,
           { cacheCleared with
              sites := some (gatewaySelectSites gwAfterUpdate.sitesTable, 10) },
           1) :=
  (write_invalidates_sites_cache gwOk cacheWarm 1 updSample insGamma 10).1
    gwAfterUpdate cacheCleared (by rfl)

/-- C3.  TTL behaviour of the two cached readers: after a read has
fetched through the Gateway and stored at time t0, a read whose age is
within the window (60 s for `charger_sites`, 300 s for `charger_clients`)
makes no Gateway call and returns the stored value with the cache
unchanged, while a read at or beyond the window makes exactly one new
Gateway call, stores its result under the fresh timestamp, and returns
it. -/
theorem cache_ttl_behavior (gw : Gateway) (c0 : AppCache) (t0 t1 t2 : Nat) :
    (∀ v c1, charger_sites gw c0 t0 = .ok (v, c1, 1) →
      c1.sites = some (v, t0) ∧
      (t1 - t0 < 60 → charger_sites gw c1 t1 = .ok (v, c1, 0)) ∧
      (60 ≤ t2 - t0 → gw.failing = false →
        charger_sites gw c1 t2 =
          .ok (gatewaySelectSites gw.sitesTable,
               { c1 with sites := some (gatewaySelectSites gw.sitesTable, t2) },
               1))) ∧
    (∀ m c1, charger_clients gw c0 t0 = .ok (m, c1, 1) →
      c1.clients = some (m, t0) ∧
      (t1 - t0 < 300 → charger_clients gw c1 t1 = .ok (m, c1, 0)) ∧
      (300 ≤ t2 - t0 → gw.failing = false →
        charger_clients gw c1 t2 =
          .ok (gatewaySelectClients gw.clientsTable,
               { c1 with clients := some (gatewaySelectClients gw.clientsTable, t2) },
               1))) := by
  constructor
  · intro v c1 h
    have hmain : v = gatewaySelectSites gw.sitesTable ∧
        c1 = { c0 with sites := some (gatewaySelectSites gw.sitesTable, t0) } ∧
        gw.failing = false := by
      unfold charger_sites at h
      rcases hs : c0.sites with _ | ⟨v0, t⟩ <;> rw [hs] at h
      · cases hgw : gw.failing with
        | true => rw [hgw] at h; simp at h
        | false =>
            rw [hgw] at h
            simp only [Bool.false_eq_true, if_false, Except.ok.injEq,
              Prod.mk.injEq] at h
            exact ⟨h.1.symm, h.2.1.symm, rfl⟩
      · split at h
        · split at h
          · simp at h
          · cases hgw : gw.failing with
            | true => rw [hgw] at h; simp at h
            | false =>
                rw [hgw] at h
                simp only [Bool.false_eq_true, if_false, Except.ok.injEq,
                  Prod.mk.injEq] at h
                exact ⟨h.1.symm, h.2.1.symm, rfl⟩
        · contradiction
    obtain ⟨hv, hc1, hgw⟩ := hmain
    subst hv
    subst hc1
    refine ⟨rfl, ?_, ?_⟩
    · intro ht1
      simp [charger_sites, ht1]
    · intro ht2 _
      have hnot : ¬(t2 - t0 < 60) := not_lt.mpr ht2
      simp [charger_sites, hnot, hgw]
  · intro m c1 h
    have hmain : m = gatewaySelectClients gw.clientsTable ∧
        c1 = { c0 with clients := some (gatewaySelectClients gw.clientsTable, t0) } ∧
        gw.failing = false := by
      unfold charger_clients at h
      rcases hs : c0.clients with _ | ⟨m0, t⟩ <;> rw [hs] at h
      · cases hgw : gw.failing with
        | true => rw [hgw] at h; simp at h
        | false =>
            rw [hgw] at h
            simp only [Bool.false_eq_true, if_false, Except.ok.injEq,
              Prod.mk.injEq] at h
            exact ⟨h.1.symm, h.2.1.symm, rfl⟩
      · split at h
        · split at h
          · simp at h
          · cases hgw : gw.failing with
            | true => rw [hgw] at h; simp at h
            | false =>
                rw [hgw] at h
                simp only [Bool.false_eq_true, if_false, Except.ok.injEq,
                  Prod.mk.injEq] at h
                exact ⟨h.1.symm, h.2.1.symm, rfl⟩
        · contradiction
    obtain ⟨hm, hc1, hgw⟩ := hmain
    subst hm
    subst hc1
    refine ⟨rfl, ?_, ?_⟩
    · intro ht1
      simp [charger_clients, ht1]
    · intro ht2 _
      have hnot : ¬(t2 - t0 < 300) := not_lt.mpr ht2
      simp [charger_clients, hnot, hgw]

/-- C3 witness: a cold read of each collection from the sample store at
time 0, rechecked through the theorem at time 30 (inside both windows: no
call, cached value) and at times 100 and 400 (past the respective
windows: one fresh call each, fresh timestamp). -/
theorem cache_ttl_behavior_witness :
    cacheSites0.sites = some (gatewaySelectSites gwOk.sitesTable, 0) ∧
    charger_sites gwOk cacheSites0 30 =
      .ok (gatewaySelectSites gwOk.sitesTable, cacheSites0, 0) ∧
    charger_sites gwOk cacheSites0 100 =
      .ok (gatewaySelectSites gwOk.sitesTable,
           { cacheSites0 with
              sites := some (gatewaySelectSites gwOk.sitesTable, 100) }, 1) ∧
    cacheClients0.clients = some (gatewaySelectClients gwOk.clientsTable, 0) ∧
    charger_clients gwOk cacheClients0 30 =
      .ok (gatewaySelectClients gwOk.clientsTable, cacheClients0, 0) ∧
    charger_clients gwOk cacheClients0 400 =
      .ok (gatewaySelectClients gwOk.clientsTable,
           { cacheClients0 with
              clients := some (gatewaySelectClients gwOk.clientsTable, 400) },
           1) := by
  have hs := (cache_ttl_behavior gwOk emptyCache 0 30 100).1
    (gatewaySelectSites gwOk.sitesTable) cacheSites0 (by rfl)
  have hc := (cache_ttl_behavior gwOk emptyCache 0 30 400).2
    (gatewaySelectClients gwOk.clientsTable) cacheClients0 (by rfl)
  exact ⟨hs.1, hs.2.1 (by decide), hs.2.2 (by decide) (by decide),
         hc.1, hc.2.1 (by decide), hc.2.2 (by decide) (by decide)⟩

/-- C5 counterexample.  The claim "the default max bound equals the
maximum nominal power of the collection, and 10000 when the maximum is
absent" fails on both sides of Python's `or`: a collection whose maximum
power is 0 gets the bound 10000 (0 is falsy), and a collection whose
powers are all null gets NaN (`none` here — pandas' NaN is truthy), not
10000. -/
theorem default_max_mismatch :
    seriesMaxPower [viewZeroPower] = some 0 ∧
    puissance_max_default [viewZeroPower] = some 10000 ∧
    (10000 : ℚ) ≠ 0 ∧
    seriesMaxPower [viewNullPower] = none ∧
    puissance_max_default [viewNullPower] = none ∧
    (none : Option ℚ) ≠ some 10000 := by
  refine ⟨by decide, by decide, by decide, by decide, by decide, by decide⟩

/-- C5 amended.  The default max bound equals the maximum nominal power
of the unfiltered collection when that maximum is present and nonzero;
it is the sentinel 10000 when the maximum is present but equal to 0; and
it is NaN — not 10000 — when every power is absent.  (An empty collection
never reaches this code: the app halts beforehand.) -/
theorem default_max_amended (df : List SiteView) :
    (∀ m : ℚ, seriesMaxPower df = some m → m ≠ 0 →
      puissance_max_default df = some m) ∧
    (seriesMaxPower df = some 0 → puissance_max_default df = some 10000) ∧
    (seriesMaxPower df = none → puissance_max_default df = none) := by
  refine ⟨?_, ?_, ?_⟩
  · intro m hm hm0
    simp [puissance_max_default, pyOrTenThousand, hm, hm0]
  · intro h0
    simp [puissance_max_default, pyOrTenThousand, h0]
  · intro hn
    simp [puissance_max_default, pyOrTenThousand, hn]

/-- C5 amended witness: the three regimes evaluated through the amended
theorem on one-element collections with power 50, power 0, and no
power. -/
theorem default_max_amended_witness :
    puissance_max_default [viewAlpha] = some 50 ∧
    puissance_max_default [viewZeroPower] = some 10000 ∧
    puissance_max_default [viewNullPower] = none :=
  ⟨(default_max_amended [viewAlpha]).1 50 (by decide) (by decide),
   (default_max_amended [viewZeroPower]).2.1 (by decide),
   (default_max_amended [viewNullPower]).2.2 (by decide)⟩

/-- C6 counterexample.  The claim "every Gateway failure, on both read
and write calls, is caught at the point of the call and converted to a
user-visible failure message" fails for the reads: with a failing store
and an empty cache, the top-level read phase ends with the exception
escaping the script run, not with a caught user-visible message. -/
theorem read_failure_uncaught :
    (load_data gwFail emptyCache 0).1 = LoadResult.uncaught "store error" ∧
    loadFailureCaught (load_data gwFail emptyCache 0).1 = false :=
  ⟨rfl, rfl⟩

/-- C6 amended.  Gateway failures on the two write paths are caught at
the point of the call and converted to a user-visible failure message,
with the store, the cache (in particular: no invalidation) and hence the
prior visible state untouched; Gateway failures on the top-level read
calls are not caught by the application and escape the script run. -/
theorem gateway_failure_handling (gw : Gateway) (cache : AppCache)
    (site_id : Int) (f : EditForm) (name code : String) (pw : ℚ)
    (addr : String) (dt : Option String) (cl : Option Int) (now : Nat) :
    gw.failing = true →
    (form_edit_submit gw cache site_id f =
      (.userMessage "Erreur lors de la sauvegarde : store error", gw, cache, 1)) ∧
    (name ≠ "" →
      form_ajout_submit gw cache name code pw addr dt cl =
        (.userMessage "Erreur lors de l\x27ajout : store error", gw, cache, 1)) ∧
    (cache.sites = none →
      (load_data gw cache now).1 = LoadResult.uncaught "store error") := by
  intro hgw
  refine ⟨?_, ?_, ?_⟩
  · unfold form_edit_submit sauvegarder_site gatewayUpdate
    rw [hgw]
    rfl
  · intro hname
    unfold form_ajout_submit ajouter_site gatewayInsert
    rw [if_neg hname, hgw]
    rfl
  · intro hsites
    unfold load_data charger_sites
    rw [hsites, hgw]
    rfl

/-- C6 amended witness: both submit handlers and the read phase run
against the failing sample store through the theorem. -/
theorem gateway_failure_handling_witness :
    (form_edit_submit gwFail emptyCache 1 (form_edit_prefill siteAlpha) =
      (.userMessage "Erreur lors de la sauvegarde : store error", gwFail,
       emptyCache, 1)) ∧
    (form_ajout_submit gwFail emptyCache "Gamma" "" 0 "" none none =
      (.userMessage "Erreur lors de l\x27ajout : store error", gwFail,
       emptyCache, 1)) ∧
    ((load_data gwFail emptyCache 5).1 = LoadResult.uncaught "store error") := by
  have h := gateway_failure_handling gwFail emptyCache 1
    (form_edit_prefill siteAlpha) "Gamma" "" 0 "" none none 5 rfl
  exact ⟨h.1, h.2.1 (by decide), h.2.2 rfl⟩

/-- C7.  Scenario D: inserting with only a name — every other form field
left at its default — yields a payload whose code, power, address, date
and client are all null; a successful insert appends exactly the row
carrying those nulls, and the effective power of that row is 0. -/
theorem insert_only_name_defaults (gw : Gateway) :
    insGamma = { name := "Gamma", code := none, nominal_power := none,
                 address := none, commission_date := none,
                 client_map_id := none } ∧
    fillna0 insGamma.nominal_power = 0 ∧
    (∀ gw2 cache2, ajouter_site gw emptyCache insGamma = .ok (gw2, cache2) →
      gw2.sitesTable =
        gw.sitesTable ++ [insertedRow (freshId gw.sitesTable) insGamma] ∧
      (insertedRow (freshId gw.sitesTable) insGamma).code = none ∧
      (insertedRow (freshId gw.sitesTable) insGamma).nominal_power = none ∧
      (insertedRow (freshId gw.sitesTable) insGamma).client_map_id = none ∧
      fillna0 (insertedRow (freshId gw.sitesTable) insGamma).nominal_power = 0) := by
  refine ⟨by decide, by decide, ?_⟩
  intro gw2 cache2 h
  unfold ajouter_site gatewayInsert at h
  cases hgw : gw.failing with
  | true => rw [hgw] at h; simp at h
  | false =>
      rw [hgw] at h
      simp only [Bool.false_eq_true, if_false, Except.ok.injEq,
        Prod.mk.injEq] at h
      obtain ⟨h1, -⟩ := h
      subst h1
      exact ⟨rfl, rfl, rfl, rfl, rfl⟩

/-- C7 witness: the Scenario D insert run against the sample store
through the theorem. -/
theorem insert_only_name_defaults_witness :
    gwAfterInsert.sitesTable =
      gwOk.sitesTable ++ [insertedRow (freshId gwOk.sitesTable) insGamma] ∧
    (insertedRow (freshId gwOk.sitesTable) insGamma).code = none ∧
    (insertedRow (freshId gwOk.sitesTable) insGamma).nominal_power = none ∧
    (insertedRow (freshId gwOk.sitesTable) insGamma).client_map_id = none ∧
    fillna0 (insertedRow (freshId gwOk.sitesTable) insGamma).nominal_power = 0 :=
  (insert_only_name_defaults gwOk).2.2 gwAfterInsert emptyCache (by rfl)

/-- C8.  On creation, an empty name fails the "name is required" check
before any network call: the outcome is the validation error, zero
Gateway write calls are made and both the store and the cache are
untouched (no invalidation); a non-empty name proceeds to issue the
insert (exactly one Gateway write call). -/
theorem creation_name_validation (gw : Gateway) (cache : AppCache)
    (add_name add_code : String) (add_power : ℚ) (add_address : String)
    (add_date : Option String) (add_client : Option Int) :
    (add_name = "" →
      form_ajout_submit gw cache add_name add_code add_power add_address
          add_date add_client =
        (.validationError "Le nom est obligatoire.", gw, cache, 0)) ∧
    (add_name ≠ "" →
      (form_ajout_submit gw cache add_name add_code add_power add_address
          add_date add_client).2.2.2 = 1) := by
  constructor
  · intro h
    simp [form_ajout_submit, h]
  · intro h
    unfold form_ajout_submit
    rw [if_neg h]
    cases hres : ajouter_site gw cache
        (insert_data add_name add_code add_power add_address add_date
          add_client) with
    | error e => rfl
    | ok p =>
        obtain ⟨gw2, c2⟩ := p
        rfl

/-- C8 witness: an empty-name submission rejected with no Gateway call
and untouched state, and a named submission issuing exactly one insert,
via the theorem. -/
theorem creation_name_validation_witness :
    (form_ajout_submit gwOk cacheWarm "" "" 0 "" none none =
      (.validationError "Le nom est obligatoire.", gwOk, cacheWarm, 0)) ∧
    (form_ajout_submit gwOk cacheWarm "Gamma" "" 0 "" none none).2.2.2 = 1 := by
  have h1 := creation_name_validation gwOk cacheWarm "" "" 0 "" none none
  have h2 := creation_name_validation gwOk cacheWarm "Gamma" "" 0 "" none none
  exact ⟨h1.1 rfl, h2.2 (by decide)⟩

/-- C10 counterexample.  The claim "for every site whose stored
nominal_power is absent, the edit form pre-fills the power field with 0
and submitting the form unchanged writes nominal_power = 0.0" fails in a
mixed collection: drawn from the pair of Alpha (power 50) and the
all-null row, the null-power record travels through a float64 column, so
its power cell is NaN — truthy in Python — and
`float(site["nominal_power"] or 0)` pre-fills NaN, not 0; the unchanged
submit then writes that NaN. -/
theorem edit_prefill_nan_mismatch :
    siteBare.nominal_power = none ∧
    recordPower [siteAlpha, siteBare] siteBare = PyNum.nan ∧
    prefillPower [siteAlpha, siteBare] siteBare = PyNum.nan ∧
    PyNum.nan ≠ PyNum.num 0 :=
  ⟨rfl, by decide, by decide, by decide⟩

/-- C10 (amended).  The edit round trip is not the identity on null
fields and never writes a null back: null name, code and address
pre-fill as the empty string and are written back as empty strings.  For
the power field the outcome depends on the collection the record was
drawn from: when every power in the collection is absent (object column,
None preserved), a null power pre-fills as 0 and an unchanged submit
writes the number 0, the stored row afterwards holding `some 0`; when
any site in the collection has a numeric power (float64 column), a null
power reaches the widget as NaN — truthy — so the prefill, and hence the
unchanged write, is NaN rather than 0.  In every case the prefilled
power is a number or NaN, never None. -/
theorem edit_round_trip_nulls (sites : List SiteRecord) (s : SiteRecord) :
    (s.nominal_power = none →
      (sites.all fun r => r.nominal_power.isNone) = true →
      prefillPower sites s = PyNum.num 0 ∧
      (form_edit_prefill s).new_power = 0 ∧
      (update_data (form_edit_prefill s)).nominal_power = 0 ∧
      (applyUpdate s (update_data (form_edit_prefill s))).nominal_power =
        some 0) ∧
    (s.nominal_power = none →
      (sites.all fun r => r.nominal_power.isNone) = false →
      prefillPower sites s = PyNum.nan) ∧
    prefillPower sites s ≠ PyNum.none ∧
    (s.name = none →
      (update_data (form_edit_prefill s)).name = "" ∧
      (applyUpdate s (update_data (form_edit_prefill s))).name =
        some "") ∧
    (s.code = none →
      (update_data (form_edit_prefill s)).code = "") ∧
    (s.address = none →
      (update_data (form_edit_prefill s)).address = "") := by
  refine ⟨?_, ?_, ?_, ?_, ?_, ?_⟩
  · intro h hall
    refine ⟨?_, ?_, ?_, ?_⟩ <;>
      simp [prefillPower, recordPower, pyNumOrZero, form_edit_prefill,
        update_data, applyUpdate, pyOrRat, h, hall]
  · intro h hall
    simp [prefillPower, recordPower, pyNumOrZero, h, hall]
  · cases hp : s.nominal_power with
    | some q =>
        simp only [prefillPower, recordPower, pyNumOrZero, hp]
        split <;> simp
    | none =>
        simp only [prefillPower, recordPower, hp]
        split <;> simp [pyNumOrZero]
  · intro h
    constructor <;>
      simp [form_edit_prefill, update_data, applyUpdate, pyOrStr, h]
  · intro h
    simp [form_edit_prefill, update_data, pyOrStr, h]
  · intro h
    simp [form_edit_prefill, update_data, pyOrStr, h]

/-- C10 witness: the all-null sample row round-tripped through the
theorem inside the singleton collection (power pre-fills as 0, is
written as 0, strings come back empty) and inside the mixed collection
with Alpha (power pre-fills as NaN). -/
theorem edit_round_trip_nulls_witness :
    (prefillPower [siteBare] siteBare = PyNum.num 0 ∧
     (form_edit_prefill siteBare).new_power = 0 ∧
     (update_data (form_edit_prefill siteBare)).nominal_power = 0 ∧
     (applyUpdate siteBare
        (update_data (form_edit_prefill siteBare))).nominal_power = some 0) ∧
    prefillPower [siteAlpha, siteBare] siteBare = PyNum.nan ∧
    prefillPower [siteBare] siteBare ≠ PyNum.none ∧
    ((update_data (form_edit_prefill siteBare)).name = "" ∧
     (applyUpdate siteBare
        (update_data (form_edit_prefill siteBare))).name = some "") ∧
    (update_data (form_edit_prefill siteBare)).code = "" ∧
    (update_data (form_edit_prefill siteBare)).address = "" := by
  have h1 := edit_round_trip_nulls [siteBare] siteBare
  have h2 := edit_round_trip_nulls [siteAlpha, siteBare] siteBare
  exact ⟨h1.1 rfl (by decide), h2.2.1 rfl (by decide), h1.2.2.1,
         h1.2.2.2.1 rfl, h1.2.2.2.2.1 rfl, h1.2.2.2.2.2 rfl⟩

end PVDashboard
